import Mathlib

/-!
Verification of the local-virtual-gossip node program.

The repository has two Go variants of the same node program:
  * `src/unnamed/part_001` (the buffering variant): global `logBuffer`,
    `flushOnce : sync.Once`, `logLock : sync.Mutex`, `logWithTime`,
    `flushLogToDisk`, retry goroutine with jittered backoff, publish rule
    `port == 4000 + minnode`, shutdown on SIGINT/SIGTERM followed by
    `flushOnce.Do(flushLogToDisk)`.
  * `src/main.go` (the plain variant): `logWithTime` prints straight to
    stdout, no buffer, no flush, no retry loop.

The development below is a shallow embedding of those functions.  Effects
(mutex operations, file writes, stdout prints, buffer appends) are made
explicit; external collaborators (the crypto library, multiaddr parsing,
the mesh) are modelled as oracles or abstract injective codings.
-/

namespace Gossip

/-! ## Effects and the non-reentrant mutex semantics (part_001)

`logLock` is a Go `sync.Mutex`, which is not reentrant: a goroutine that
locks it twice without an intermediate unlock blocks forever.  We model a
single goroutine's straight-line code as a list of operations and execute
it against the mutex state; reaching `lock` while the mutex is held
produces a `blocked` result carrying the effects performed so far. -/

/-- Observable side effect of the logging / flushing code of part_001. -/
inductive Action where
  /-- `os.MkdirAll("logs", 0755)` -/
  | mkdirLogs
  /-- `os.Create(path)` : create-or-truncate and open the file -/
  | createFile (path : String)
  /-- `f.WriteString(line)` on the currently open file -/
  | writeLine (s : String)
  /-- `logBuffer = append(logBuffer, line)` -/
  | bufferAppend (s : String)
  /-- `fmt.Print(line)` -/
  | printLine (s : String)
  /-- the deferred `f.Close()` -/
  | closeFile
  deriving DecidableEq, Repr

/-- One operation of a goroutine's straight-line code: take the global
log mutex, release it, or perform a side effect. -/
inductive MuOp where
  | lock
  | unlock
  | act (a : Action)
  deriving DecidableEq, Repr

/-- Result of running straight-line code against the mutex: either the
code ran to completion, or it reached `lock` with the mutex already held
by this very goroutine and is blocked forever (Go mutexes are not
reentrant).  Both carry the side effects performed. -/
inductive RunResult where
  | done (locked : Bool) (acts : List Action)
  | blocked (acts : List Action)
  deriving DecidableEq, Repr

/-- Execute a list of operations from a given mutex state. -/
def runOps : List MuOp → Bool → RunResult
  | [], locked => .done locked []
  | .lock :: rest, locked =>
      if locked then .blocked [] else runOps rest true
  | .unlock :: rest, _ => runOps rest false
  | .act a :: rest, locked =>
      match runOps rest locked with
      | .done l acts => .done l (a :: acts)
      | .blocked acts => .blocked (a :: acts)

/-- Body of `logWithTime` (part_001 lines 36-44), for an already
formatted line (the timestamp is folded into the line): lock `logLock`,
append to `logBuffer`, print to stdout, deferred unlock. -/
def logWithTimeOps (line : String) : List MuOp :=
  [.lock, .act (.bufferAppend line), .act (.printLine line), .unlock]

/-- Per-node log file path, `fmt.Sprintf("logs/node%d.log", nodeNum)`. -/
def logPath (nodeNum : Nat) : String :=
  "logs/node" ++ toString nodeNum ++ ".log"

/-- The line `flushLogToDisk` tries to log at its end (timestamp
abstracted away, as in `logWithTimeOps`). -/
def flushedMsg (n : Nat) (buf : List String) : String :=
  "Flushed " ++ toString buf.length ++ " log lines to " ++ logPath n ++ "\n"

/-- Body of `flushLogToDisk` (part_001 lines 46-63): lock `logLock`
(unlock deferred to return), `MkdirAll("logs")`, `os.Create` the per-node
file, write every buffered line in order, then call `logWithTime` —
which itself starts by locking `logLock` again.  The deferred `f.Close()`
and the deferred unlock sit at the end, executed only on return. -/
def flushLogToDiskOps (n : Nat) (buf : List String) : List MuOp :=
  MuOp.lock :: MuOp.act .mkdirLogs :: MuOp.act (.createFile (logPath n)) ::
    (buf.map (fun l => MuOp.act (.writeLine l)) ++
      (logWithTimeOps (flushedMsg n buf) ++ [MuOp.act .closeFile, MuOp.unlock]))

/-- Running a block of pure side effects prepends them to whatever the
continuation produces. -/
theorem runOps_acts_append (acts : List Action) (rest : List MuOp) (locked : Bool) :
    runOps (acts.map MuOp.act ++ rest) locked =
      match runOps rest locked with
      | .done l as => .done l (acts ++ as)
      | .blocked as => .blocked (acts ++ as) := by
  induction acts with
  | nil => simp only [List.map_nil, List.nil_append]; cases runOps rest locked <;> simp
  | cons a as ih =>
      simp only [List.map_cons, List.cons_append, runOps]
      simp only [List.append_eq]
      rw [ih]
      cases runOps rest locked <;> simp

/-- Helper: the exact run of `flushLogToDisk` from an unlocked mutex.
It performs the directory creation, the file create/truncate and the
buffered writes, then blocks forever at `logWithTime`'s `logLock.Lock()`
because it still holds `logLock` itself. -/
theorem flushRun_eq (n : Nat) (buf : List String) :
    runOps (flushLogToDiskOps n buf) false =
      .blocked (Action.mkdirLogs :: Action.createFile (logPath n) ::
        buf.map Action.writeLine) := by
  have hlog : runOps (logWithTimeOps (flushedMsg n buf) ++
      [MuOp.act .closeFile, MuOp.unlock]) true = .blocked [] := by
    simp [logWithTimeOps, runOps]
  have hwrites : runOps (buf.map (fun l => MuOp.act (.writeLine l)) ++
      (logWithTimeOps (flushedMsg n buf) ++ [MuOp.act .closeFile, MuOp.unlock])) true =
      .blocked (buf.map Action.writeLine) := by
    rw [show buf.map (fun l => MuOp.act (Action.writeLine l)) =
        (buf.map Action.writeLine).map MuOp.act by simp [List.map_map]]
    rw [runOps_acts_append, hlog]
    simp
  simp only [flushLogToDiskOps, runOps]
  rw [hwrites]
  simp

/-- Claim C2: every call to `flushLogToDisk` deadlocks before returning.
It takes `logLock` (unlock deferred), performs the directory creation,
the create/truncate of `logs/node<n>.log` and the buffered writes, and
then calls `logWithTime`, which tries to lock the same non-reentrant
mutex: the run blocks; the effects performed never include printing (or
buffering) the `Flushed N log lines` message; and, since the mutex stays
held, any subsequent `logWithTime` append also blocks forever — so the
process can never complete the flush and exit cleanly through it. -/
theorem flushLogToDisk_deadlocks (n : Nat) (buf : List String) (line : String) :
    runOps (flushLogToDiskOps n buf) false =
      RunResult.blocked (Action.mkdirLogs :: Action.createFile (logPath n) ::
        buf.map Action.writeLine) ∧
    Action.printLine (flushedMsg n buf) ∉
      (Action.mkdirLogs :: Action.createFile (logPath n) :: buf.map Action.writeLine) ∧
    Action.bufferAppend (flushedMsg n buf) ∉
      (Action.mkdirLogs :: Action.createFile (logPath n) :: buf.map Action.writeLine) ∧
    runOps (logWithTimeOps line) true = RunResult.blocked [] := by
  refine ⟨flushRun_eq n buf, ?_, ?_, by simp [logWithTimeOps, runOps]⟩ <;>
  · intro h
    simp only [List.mem_cons, List.mem_map] at h
    rcases h with h | h | ⟨l, _, h⟩ <;> simp_all

/-! ## The flush-once guard (part_001)

`flushOnce : sync.Once` guards `flushLogToDisk`.  `sync.Once.Do` runs its
body if and only if it is the first `Do` on that `Once` value: the
first-caller test is atomic, so an arbitrary concurrent set of `Do`
calls behaves like some sequential order of them.  We model the trigger
events that invoke `flushOnce.Do(flushLogToDisk ...)` in the program —
the timer goroutine armed by the first received message (part_001 lines
73-81) and the shutdown path in `main` (lines 258-260) — as a list in
their arbitrary arrival order, and count body executions. -/

/-- Call site that invokes `flushOnce.Do` in part_001. -/
inductive FlushTrigger where
  /-- the five-second timer goroutine armed by the first received message -/
  | firstMessageTimer
  /-- the shutdown path of `main` after a SIGINT/SIGTERM -/
  | shutdownSignal
  deriving DecidableEq, Repr

/-- Number of times the guarded body runs, given the `Do` calls in
arrival order and the state of the once-flag. -/
def onceDoCount : List FlushTrigger → Bool → Nat
  | [], _ => 0
  | _ :: rest, true => onceDoCount rest true
  | _ :: rest, false => 1 + onceDoCount rest true

/-- Number of executions of the guarded flush over a whole process
lifetime (the once-flag starts clear). -/
def flushExecutions (ts : List FlushTrigger) : Nat := onceDoCount ts false

/-- Once the flag is set, no later `Do` call runs the body. -/
theorem onceDoCount_true (ts : List FlushTrigger) : onceDoCount ts true = 0 := by
  induction ts with
  | nil => rfl
  | cons t rest ih => simpa [onceDoCount] using ih

/-- Claim C1: per process lifetime the guarded flush executes at most
once; if any trigger fires it executes exactly once (fired by the first
trigger in arrival order), and every later trigger — in particular the
loser of a race between the first-message timer and the shutdown
handler — is a no-op, so the per-node log file is not double-written. -/
theorem flushOnce_at_most_once (ts : List FlushTrigger) :
    flushExecutions ts ≤ 1 ∧
    (ts ≠ [] → flushExecutions ts = 1) ∧
    (∀ t rest, ts = t :: rest → onceDoCount rest true = 0) := by
  refine ⟨?_, ?_, ?_⟩
  · cases ts with
    | nil => simp [flushExecutions, onceDoCount]
    | cons t rest => simp [flushExecutions, onceDoCount, onceDoCount_true]
  · intro h
    cases ts with
    | nil => exact absurd rfl h
    | cons t rest => simp [flushExecutions, onceDoCount, onceDoCount_true]
  · intro t rest h
    exact onceDoCount_true rest

/-- Witness for C1: with both the first-message timer and the shutdown
handler firing, the flush still executes exactly once. -/
theorem flushOnce_at_most_once_witness :
    flushExecutions [FlushTrigger.firstMessageTimer, FlushTrigger.shutdownSignal] = 1 :=
  (flushOnce_at_most_once [FlushTrigger.firstMessageTimer, FlushTrigger.shutdownSignal]).2.1
    (by simp)

/-! ## Peer connection retry with jittered backoff (part_001 lines 219-238)

On a failed initial `h.Connect`, part_001 spawns a goroutine running
`for i := 0; i < 3; i++`.  Iteration `i` computes
`baseBackoff := time.Duration(i+1) * 5 * time.Second`, sleeps
`jitter := time.Duration(mathrand.Intn(int(baseBackoff))) + baseBackoff/2`,
and reconnects; success returns early.  Durations are in nanoseconds;
`mathrand.Intn(m)` returns a uniform draw in `[0, m)`, modelled by an
explicit draw argument bounded by `m`. -/

/-- Nanoseconds in `time.Second`. -/
def nsPerSecond : Nat := 1000000000

/-- `baseBackoff` of retry-loop iteration `i` (0-indexed loop variable,
exactly the code's `time.Duration(i+1) * 5 * time.Second`), in ns. -/
def baseBackoffNs (i : Nat) : Nat := (i + 1) * 5 * nsPerSecond

/-- The jittered sleep of iteration `i` for the random draw `draw`
(the outcome of `mathrand.Intn(int(baseBackoff))`), in ns. -/
def jitterSleepNs (i draw : Nat) : Nat := draw + baseBackoffNs i / 2

/-- The retry loop of the goroutine: `fuel` is the remaining iteration
budget, `i` the loop variable; `conn i` tells whether the reconnect
attempt of iteration `i` succeeds.  Returns the list of loop indices at
which a reconnect was attempted. -/
def retryLoopAux (conn : Nat → Bool) : Nat → Nat → List Nat
  | 0, _ => []
  | fuel + 1, i => if conn i then [i] else i :: retryLoopAux conn fuel (i + 1)

/-- The retry attempts made by the background goroutine (`for i := 0;
i < 3; i++`). -/
def retryAttempts (conn : Nat → Bool) : List Nat := retryLoopAux conn 3 0

/-- Total connection attempts made for one peer in part_001: the initial
synchronous `h.Connect`, plus — when it fails — the background retries. -/
def totalAttempts (initialOk : Bool) (conn : Nat → Bool) : Nat :=
  if initialOk then 1 else 1 + (retryAttempts conn).length

/-- Counterexample to claim C3 as stated: the claim puts the backoff of
retry `i` (1-indexed) in `[(i+1)*5s/2, (i+1)*5s*1.5)`, so for the first
retry at least `(1+1)*5s/2 = 5s`.  The code's first retry is loop
iteration `0` with `baseBackoff = (0+1)*5s = 5s`; the draw `0` is a
possible `Intn` outcome and yields a sleep of `2.5s`, below the claimed
lower bound. -/
theorem retryBackoff_claim_counterexample :
    0 < baseBackoffNs 0 ∧
    jitterSleepNs 0 0 = 2500000000 ∧
    jitterSleepNs 0 0 < (1 + 1) * 5 * nsPerSecond / 2 := by
  refine ⟨?_, ?_, ?_⟩ <;> norm_num [jitterSleepNs, baseBackoffNs, nsPerSecond]

/-- Claim C3, amended: for a peer whose every attempt fails, exactly 4
total connection attempts are made (1 initial + 3 retries), and the
backoff sleep of loop iteration `i` (`i < 3`; retry `i+1` in 1-indexed
terms) lies in `[base/2, base/2 + base)` — 50% to 150% — for
`base = (i+1)*5s`, i.e. base `i*5s` for retry `i` 1-indexed, not
`(i+1)*5s` as the claim stated. -/
theorem retryBackoff_amended (i draw : Nat) (hi : i < 3) (hdraw : draw < baseBackoffNs i) :
    totalAttempts false (fun _ => false) = 4 ∧
    retryAttempts (fun _ => false) = [0, 1, 2] ∧
    baseBackoffNs i = (i + 1) * 5 * nsPerSecond ∧
    baseBackoffNs i / 2 ≤ jitterSleepNs i draw ∧
    jitterSleepNs i draw < baseBackoffNs i / 2 + baseBackoffNs i := by
  refine ⟨rfl, rfl, rfl, ?_, ?_⟩
  · exact Nat.le_add_left _ _
  · simp only [jitterSleepNs]
    omega

/-- Witness for the amended C3 at iteration 0 with draw 0. -/
theorem retryBackoff_amended_witness :
    totalAttempts false (fun _ => false) = 4 ∧
    jitterSleepNs 0 0 < baseBackoffNs 0 / 2 + baseBackoffNs 0 :=
  ⟨(retryBackoff_amended 0 0 (by norm_num) (by norm_num [baseBackoffNs, nsPerSecond])).1,
   (retryBackoff_amended 0 0 (by norm_num) (by norm_num [baseBackoffNs, nsPerSecond])).2.2.2.2⟩

/-! ## Publish scheduler (part_001 lines 243-250, main.go lines 209-216)

Both variants publish if and only if `*port == 4000 + *minNum`, after a
30 second warm-up sleep, with the fixed payload. -/

/-- Configuration relevant to originator election. -/
structure NodeConfig where
  port : Int
  nodeNum : Int
  minNum : Int
  deriving DecidableEq, Repr

/-- The fixed payload published to the topic. -/
def topicMessage : String := "Hello from GossipSub!"

/-- Election rule from the code: `*port == 4000 + *minNum`. -/
def isOriginator (c : NodeConfig) : Bool := c.port == 4000 + c.minNum

/-- The publish phase of `main` in both variants: inside the `if`, sleep
30 seconds and publish the fixed payload once (a failed publish is
`log.Fatal`, so no further publish can follow).  Result: the list of
(warm-up seconds, payload) publish calls made. -/
def publishPhase (c : NodeConfig) : List (Nat × String) :=
  if isOriginator c then [(30, topicMessage)] else []

/-- Claim C5: a node publishes iff its port equals 4000 plus the minimum
node index; the originator publishes the single fixed payload exactly
once after the fixed 30-second warm-up, and every other node publishes
nothing. -/
theorem originator_publishes_iff (c : NodeConfig) :
    (publishPhase c ≠ [] ↔ c.port = 4000 + c.minNum) ∧
    (c.port = 4000 + c.minNum → publishPhase c = [(30, topicMessage)]) ∧
    (c.port ≠ 4000 + c.minNum → publishPhase c = []) ∧
    (publishPhase c).length ≤ 1 := by
  by_cases h : c.port = 4000 + c.minNum <;>
    simp [publishPhase, isOriginator, h]

/-- Witness for C5: with port 4000 and minnode 0 the node publishes the
fixed payload once; with port 4001 and minnode 0 it never publishes. -/
theorem originator_publishes_iff_witness :
    publishPhase ⟨4000, 0, 0⟩ = [(30, topicMessage)] ∧
    publishPhase ⟨4001, 1, 0⟩ = [] :=
  ⟨(originator_publishes_iff ⟨4000, 0, 0⟩).2.1 (by norm_num),
   (originator_publishes_iff ⟨4001, 1, 0⟩).2.2.1 (by norm_num)⟩

/-! ## Shutdown tails of `main` (part_001 lines 252-261, main.go lines 218-223)

Both variants end with `ch := make(chan os.Signal, 1)`,
`signal.Notify(ch, SIGINT, SIGTERM)`, and a bare receive `<-ch`.  There
is no timeout or time-budget branch in either: the receive unblocks only
when a termination signal is delivered.  We model the run's delivered
termination signals as a list in arrival order; an empty list means the
receive never unblocks (`none`). -/

/-- A delivered termination signal. -/
inductive Sig where
  | sigint
  | sigterm
  deriving DecidableEq, Repr

/-- Observable step of the shutdown tail. -/
inductive TailAct where
  /-- the `logWithTime`/`logWithTime` shutdown line naming the node -/
  | logShutdownLine (n : Nat)
  /-- `flushOnce.Do(func() { flushLogToDisk(*nodeNum) })` -/
  | flushOnceDo (n : Nat)
  deriving DecidableEq, Repr

/-- Shutdown tail of part_001 `main`: block on `<-ch`; on a signal, log
the shutdown line and invoke the guarded flush.  With no signal ever
delivered the receive never returns (`none`): the tail has no other
branch. -/
def mainShutdownPart001 (n : Nat) : List Sig → Option (List TailAct)
  | [] => none
  | _ :: _ => some [TailAct.logShutdownLine n, TailAct.flushOnceDo n]

/-- Shutdown tail of main.go `main`: block on `<-ch`; on a signal, log
the shutdown line and fall off the end of `main` — no flush exists in
this variant. -/
def mainShutdownMainGo (n : Nat) : List Sig → Option (List TailAct)
  | [] => none
  | _ :: _ => some [TailAct.logShutdownLine n]

/-- Counterexample to claim C4 as stated: the claim says a run that
never receives a termination signal still terminates once a fixed time
budget expires; but the shutdown wait of part_001 is a bare channel
receive with no time-budget branch, so with no delivered signal it never
unblocks and the flush point is never reached. -/
theorem noTimeBudget_counterexample : mainShutdownPart001 0 [] = none := rfl

/-- Claim C4, amended: after setup the process blocks until a
termination signal (SIGINT/SIGTERM) arrives — there is no time-budget
fallback, so a signal-free run blocks forever; upon the first signal it
logs the shutdown line and invokes the guarded one-time flush, whose
internal deadlock (`flushLogToDisk` relocking `logLock`) then prevents a
clean exit. -/
theorem shutdown_signal_only (n : Nat) :
    mainShutdownPart001 n [] = none ∧
    (∀ s rest, mainShutdownPart001 n (s :: rest) =
      some [TailAct.logShutdownLine n, TailAct.flushOnceDo n]) ∧
    (∀ buf : List String, runOps (flushLogToDiskOps n buf) false =
      RunResult.blocked (Action.mkdirLogs :: Action.createFile (logPath n) ::
        buf.map Action.writeLine)) :=
  ⟨rfl, fun _ _ => rfl, fun buf => flushRun_eq n buf⟩

/-! ## Identity store (part_001 lines 125-142, main.go lines 79-102)

`loadOrCreateIdentity(path)`: if `ioutil.ReadFile(path)` succeeds,
return `crypto.UnmarshalPrivateKey(data)` — a failed unmarshal
propagates its error and nothing is written; otherwise generate a fresh
Ed25519 key, marshal it and write it to `path`, returning the key.  The
file system is an association list (later writes shadow earlier
entries); the external crypto library is modelled by an abstract
injective serialization with a one-sided inverse, a generator driven by an
explicit entropy value, and an identifier derivation. -/

/-- Raw file contents. -/
abbrev Bytes := List Nat

/-- A file system: association list from path to contents, most recent
write first. -/
abbrev FileSys := List (String × Bytes)

/-- `ioutil.ReadFile`: the most recent write to the path, if any. -/
def fsRead (fs : FileSys) (p : String) : Option Bytes :=
  match fs.find? (fun e => e.1 == p) with
  | some e => some e.2
  | none => none

/-- `ioutil.WriteFile`: record the new contents (shadowing any previous
entry for the path). -/
def fsWrite (fs : FileSys) (p : String) (d : Bytes) : FileSys := (p, d) :: fs

/-- Model of a private key (abstract to the program). -/
abbrev PrivKey := Nat

/-- Model of `crypto.MarshalPrivateKey`: an injective coding. -/
def marshalPrivateKey (k : PrivKey) : Bytes := [1, k]

/-- Model of `crypto.UnmarshalPrivateKey`: one-sided inverse of the coding;
any other byte string is corrupt and fails to deserialize. -/
def unmarshalPrivateKey (b : Bytes) : Option PrivKey :=
  match b with
  | [1, k] => some k
  | _ => none

/-- Model of `crypto.GenerateEd25519Key(rand.Reader)`: a fresh key from
the entropy the random source supplies. -/
def generateEd25519Key (entropy : Nat) : PrivKey := entropy

/-- Model of `peer.IDFromPrivateKey`: the derived stable identifier of a
key (an injective derivation). -/
def peerIDFromPrivateKey (k : PrivKey) : Nat := k

/-- Per-node identity file path,
`filepath.Join("identities", fmt.Sprintf("node%d.key", nodeNum))`. -/
def identityPath (n : Nat) : String :=
  "identities/node" ++ toString n ++ ".key"

/-- `loadOrCreateIdentity` of both variants: read the file; if present,
return its unmarshalling (failure propagates, nothing written); if
absent, generate, marshal, write, and return the fresh key.  Returns
the key (or `none` for a propagated error) and the file system after
the call. -/
def loadOrCreateIdentity (fs : FileSys) (entropy : Nat) (path : String) :
    Option PrivKey × FileSys :=
  match fsRead fs path with
  | some data => (unmarshalPrivateKey data, fs)
  | none =>
      let priv := generateEd25519Key entropy
      (some priv, fsWrite fs path (marshalPrivateKey priv))

/-- Reading back the path just written yields the written contents. -/
theorem fsRead_fsWrite (fs : FileSys) (p : String) (d : Bytes) :
    fsRead (fsWrite fs p d) p = some d := by
  simp [fsRead, fsWrite, List.find?]

/-- Claim C6: identity load-or-create is stable: whatever entropy the
second call would draw, if the first call returns a key `k`, the second
call on the resulting file system returns the same `k` and leaves the
file system unchanged, so the derived peer ID is identical across any
number of restarts of the same node index. -/
theorem loadOrCreateIdentity_stable (fs : FileSys) (e1 e2 : Nat) (p : String)
    (k : PrivKey) (fs1 : FileSys)
    (h : loadOrCreateIdentity fs e1 p = (some k, fs1)) :
    loadOrCreateIdentity fs1 e2 p = (some k, fs1) ∧
    (loadOrCreateIdentity fs1 e2 p).1.map peerIDFromPrivateKey =
      some (peerIDFromPrivateKey k) := by
  have hmain : loadOrCreateIdentity fs1 e2 p = (some k, fs1) := by
    rcases hr : fsRead fs p with _ | data
    · simp only [loadOrCreateIdentity, hr, generateEd25519Key, Prod.mk.injEq,
        Option.some.injEq] at h
      obtain ⟨rfl, rfl⟩ := h
      simp [loadOrCreateIdentity, fsRead_fsWrite, unmarshalPrivateKey, marshalPrivateKey]
    · simp only [loadOrCreateIdentity, hr, Prod.mk.injEq] at h
      obtain ⟨hk, rfl⟩ := h
      simp [loadOrCreateIdentity, hr, hk]
  exact ⟨hmain, by simp [hmain]⟩

/-- Witness for C6: node 0 starting from an empty file system creates a
key from entropy 42; the immediately repeated call returns the same key
and touches nothing. -/
theorem loadOrCreateIdentity_stable_witness :
    loadOrCreateIdentity [("identities/node0.key", [1, 42])] 7 "identities/node0.key" =
      (some 42, [("identities/node0.key", [1, 42])]) :=
  (loadOrCreateIdentity_stable [] 42 7 "identities/node0.key" 42
    [("identities/node0.key", [1, 42])] rfl).1

/-- The identity phase of `main` in both variants: build the per-node
path, call `loadOrCreateIdentity`, and `log.Fatal` on error (modelled as
`none`, fatal non-zero termination before any replacement key exists). -/
def mainIdentityPhase (fs : FileSys) (entropy : Nat) (nodeNum : Nat) :
    Option (PrivKey × FileSys) :=
  match loadOrCreateIdentity fs entropy (identityPath nodeNum) with
  | (some k, fs1) => some (k, fs1)
  | (none, _) => none

/-- Claim C7: when the key file exists but fails to deserialize,
`loadOrCreateIdentity` returns the error with the file system untouched
— no replacement key is generated or written — and `main` aborts
fatally on that error. -/
theorem corruptIdentity_fatal (fs : FileSys) (e n : Nat) (data : Bytes)
    (hread : fsRead fs (identityPath n) = some data)
    (hbad : unmarshalPrivateKey data = none) :
    loadOrCreateIdentity fs e (identityPath n) = (none, fs) ∧
    mainIdentityPhase fs e n = none := by
  have h1 : loadOrCreateIdentity fs e (identityPath n) = (none, fs) := by
    simp [loadOrCreateIdentity, hread, hbad]
  exact ⟨h1, by simp [mainIdentityPhase, h1]⟩

/-- Witness for C7: a one-byte key file for node 0 is corrupt; the call
fails without writing and the main path aborts. -/
theorem corruptIdentity_fatal_witness :
    loadOrCreateIdentity [(identityPath 0, [9])] 5 (identityPath 0) =
      (none, [(identityPath 0, [9])]) ∧
    mainIdentityPhase [(identityPath 0, [9])] 5 0 = none :=
  corruptIdentity_fatal [(identityPath 0, [9])] 5 0 [9] (by rfl) rfl

/-! ## Durable effect of the flush (claim C8)

The effects that `flushLogToDisk` actually performs (those of the
blocked run computed above) are applied to a disk state:
`os.MkdirAll("logs")` registers the directory, `os.Create` truncates and
opens the per-node file, each `WriteString` appends to the open file. -/

/-- State of the durable store plus the open-file handle and stdout. -/
structure DiskState where
  dirs : List String
  files : List (String × List String)
  openPath : Option String
  stdoutLines : List String
  deriving Repr

/-- Append a line to the first entry for the given path. -/
def appendLineTo : List (String × List String) → String → String → List (String × List String)
  | [], _, _ => []
  | (q, c) :: rest, p, s =>
      if q == p then (q, c ++ [s]) :: rest
      else (q, c) :: appendLineTo rest p s

/-- Contents of a file: the first (most recent) entry for the path. -/
def getFile (files : List (String × List String)) (p : String) : Option (List String) :=
  match files.find? (fun e => e.1 == p) with
  | some e => some e.2
  | none => none

/-- Effect of one `Action` on the disk state. -/
def applyAction (st : DiskState) : Action → DiskState
  | .mkdirLogs => { st with dirs := "logs" :: st.dirs }
  | .createFile p => { st with files := (p, []) :: st.files, openPath := some p }
  | .writeLine s =>
      match st.openPath with
      | some p => { st with files := appendLineTo st.files p s }
      | none => st
  | .bufferAppend _ => st
  | .printLine s => { st with stdoutLines := st.stdoutLines ++ [s] }
  | .closeFile => { st with openPath := none }

/-- Apply a sequence of effects in order. -/
def applyActions (st : DiskState) (acts : List Action) : DiskState :=
  acts.foldl applyAction st

/-- The effects `flushLogToDisk` performs before blocking. -/
def flushActions (n : Nat) (buf : List String) : List Action :=
  match runOps (flushLogToDiskOps n buf) false with
  | .done _ acts => acts
  | .blocked acts => acts

/-- Disk state after invoking `flushLogToDisk(n)` with buffered lines
`buf`. -/
def flushDisk (n : Nat) (buf : List String) (st : DiskState) : DiskState :=
  applyActions st (flushActions n buf)

/-- Folding the buffered writes over a state whose open file is the
head entry appends them, in order, to that entry. -/
theorem applyActions_writes (buf : List String) (p : String) (acc : List String)
    (rest : List (String × List String)) (dirs : List String) (out : List String) :
    applyActions ⟨dirs, (p, acc) :: rest, some p, out⟩ (buf.map Action.writeLine) =
      ⟨dirs, (p, acc ++ buf) :: rest, some p, out⟩ := by
  induction buf generalizing acc with
  | nil => simp [applyActions]
  | cons l ls ih =>
      simp only [List.map_cons, applyActions, List.foldl_cons, applyAction, appendLineTo,
        beq_self_eq_true, if_true]
      simpa [applyActions, List.append_assoc] using ih (acc ++ [l])

/-- Claim C8: the flush writes exactly the lines buffered before the
flush, in insertion order, to `logs/node<n>.log`; it registers the
`logs` directory; and the `os.Create` truncation makes the result
independent of any pre-existing contents of that file. -/
theorem flushDisk_writes_buffer (n : Nat) (buf : List String) (st : DiskState) :
    getFile (flushDisk n buf st).files (logPath n) = some buf ∧
    "logs" ∈ (flushDisk n buf st).dirs ∧
    (flushDisk n buf st).stdoutLines = st.stdoutLines := by
  have hacts : flushActions n buf =
      Action.mkdirLogs :: Action.createFile (logPath n) :: buf.map Action.writeLine := by
    simp [flushActions, flushRun_eq]
  obtain ⟨dirs, files, op, out⟩ := st
  rw [show flushDisk n buf ⟨dirs, files, op, out⟩ =
      applyActions ⟨dirs, files, op, out⟩ (flushActions n buf) from rfl, hacts]
  simp only [applyActions, List.foldl_cons, applyAction]
  rw [show (List.foldl applyAction
      ⟨"logs" :: dirs, (logPath n, []) :: files, some (logPath n), out⟩
      (buf.map Action.writeLine)) =
    applyActions ⟨"logs" :: dirs, (logPath n, []) :: files, some (logPath n), out⟩
      (buf.map Action.writeLine) from rfl]
  rw [applyActions_writes buf (logPath n) [] files ("logs" :: dirs) out]
  refine ⟨?_, by simp, rfl⟩
  simp [getFile, List.find?]

/-! ## Peer address processing (part_001 lines 202-240)

The loop over `strings.Split(*peers, ",")`: trim; skip empty; parse the
multiaddr; on parse error log and `continue`; extract the peer info; on
extraction error log and `continue`; attempt the synchronous connect; on
failure log and spawn the retry goroutine, then `continue`.  Multiaddr
parsing, peer-info extraction and connecting are external collaborators,
passed as oracles.  The loop body never returns an error and never
terminates the process: its outcome type has no fatal alternative. -/

/-- Outcome of processing one address string in part_001. -/
inductive PeerOutcome where
  /-- trimmed address was empty: silently skipped -/
  | skippedEmpty
  /-- `multiaddr.NewMultiaddr` failed: logged, loop continues -/
  | parseError
  /-- `peer.AddrInfoFromP2pAddr` failed: logged, loop continues -/
  | infoError
  /-- initial `h.Connect` succeeded -/
  | connected
  /-- initial `h.Connect` failed: retry goroutine spawned with the
  recorded retry attempts -/
  | connectFailedRetrying (retries : List Nat)
  deriving DecidableEq, Repr

/-- Model of `strings.TrimSpace`: drop whitespace from both ends. -/
def trimSpace (s : String) : String :=
  String.mk (((s.toList.dropWhile Char.isWhitespace).reverse.dropWhile
    Char.isWhitespace).reverse)

/-- Body of the peer loop for one address string. -/
def processPeer (parse : String → Option Nat) (extract : Nat → Option Nat)
    (conn : Nat → Bool) (retryConn : Nat → Bool) (addr : String) : PeerOutcome :=
  let a := trimSpace addr
  if a == "" then .skippedEmpty
  else
    match parse a with
    | none => .parseError
    | some m =>
        match extract m with
        | none => .infoError
        | some info =>
            if conn info then .connected
            else .connectFailedRetrying (retryAttempts retryConn)

/-- The whole peer loop: one outcome per address string, in order. -/
def processPeers (parse : String → Option Nat) (extract : Nat → Option Nat)
    (conn : Nat → Bool) (retryConn : Nat → Bool) (addrs : List String) :
    List PeerOutcome :=
  addrs.map (processPeer parse extract conn retryConn)

/-- Claim C9: a malformed address in the middle of the batch yields a
logged `parseError` outcome for that address only; every address before
and after it is still processed (the loop continues), the batch always
produces one outcome per address, and no outcome is fatal — the outcome
type of the loop body has no process-terminating alternative, so a parse
error can never propagate upward. -/
theorem malformedPeer_skipped (parse : String → Option Nat) (extract : Nat → Option Nat)
    (conn : Nat → Bool) (retryConn : Nat → Bool)
    (pre suf : List String) (a : String)
    (hne : ¬ trimSpace a = "") (hbad : parse (trimSpace a) = none) :
    processPeers parse extract conn retryConn (pre ++ a :: suf) =
      processPeers parse extract conn retryConn pre ++
        PeerOutcome.parseError :: processPeers parse extract conn retryConn suf ∧
    (processPeers parse extract conn retryConn (pre ++ a :: suf)).length =
      pre.length + 1 + suf.length := by
  have hone : processPeer parse extract conn retryConn a = .parseError := by
    simp only [processPeer]
    rw [if_neg (by simpa using hne)]
    simp [hbad]
  constructor
  · simp [processPeers, hone]
  · simp [processPeers]
    omega

/-- Witness for C9: with a parser that rejects everything, the batch
`["x", "bad", "y"]` still yields one outcome per address. -/
theorem malformedPeer_skipped_witness :
    processPeers (fun _ => none) (fun _ => none) (fun _ => false) (fun _ => false)
        (["x"] ++ "bad" :: ["y"]) =
      processPeers (fun _ => none) (fun _ => none) (fun _ => false) (fun _ => false) ["x"] ++
        PeerOutcome.parseError ::
          processPeers (fun _ => none) (fun _ => none) (fun _ => false) (fun _ => false) ["y"] :=
  (malformedPeer_skipped (fun _ => none) (fun _ => none) (fun _ => false) (fun _ => false)
    ["x"] ["y"] "bad" (by decide) rfl).1

/-! ## Comparing the two variants (claim C10)

main.go's peer loop (lines 174-205) handles a failed initial
`h.Connect` with `log.Printf` and `continue`: it contains no retry loop
and spawns no goroutine.  main.go's `logWithTime` (lines 26-31) prints
straight to stdout, the program has no log buffer, no `flushOnce`, no
`flushLogToDisk`, and its `main` ends right after logging the shutdown
line (lines 218-223). -/

/-- Outcome of processing one address string in main.go. -/
inductive PeerOutcomeMainGo where
  | skippedEmpty
  | parseError
  | infoError
  | connected
  /-- initial `h.Connect` failed: `log.Printf` then `continue`; no
  retry sequence exists in this variant -/
  | connectError
  deriving DecidableEq, Repr

/-- Body of main.go's peer loop for one address string. -/
def processPeerMainGo (parse : String → Option Nat) (extract : Nat → Option Nat)
    (conn : Nat → Bool) (addr : String) : PeerOutcomeMainGo :=
  let a := trimSpace addr
  if a == "" then .skippedEmpty
  else
    match parse a with
    | none => .parseError
    | some m =>
        match extract m with
        | none => .infoError
        | some info =>
            if conn info then .connected else .connectError

/-- Retry connect attempts part_001 makes for a peer after a failed
initial connect (loop indices attempted by the background goroutine). -/
def retriesAfterFailurePart001 (retryConn : Nat → Bool) : List Nat :=
  retryAttempts retryConn

/-- Retry connect attempts main.go makes for a peer after a failed
initial connect: the failure branch is `log.Printf; continue` — the
variant has no retry code, so no attempts exist. -/
def retriesAfterFailureMainGo : List Nat := []

/-- Counterexample to claim C10 as stated: on the same flags and peer
outcomes the variants are not behaviorally equivalent.  For a peer whose
connections always fail, part_001 launches 3 background retries (4 total
attempts) where main.go launches none (1 total attempt); and after a
SIGINT, part_001's tail invokes the guarded flush where main.go's tail
performs no flush at all. -/
theorem variants_differ_counterexample :
    retriesAfterFailurePart001 (fun _ => false) = [0, 1, 2] ∧
    retriesAfterFailureMainGo = [] ∧
    totalAttempts false (fun _ => false) = 4 ∧
    mainShutdownPart001 0 [Sig.sigint] =
      some [TailAct.logShutdownLine 0, TailAct.flushOnceDo 0] ∧
    mainShutdownMainGo 0 [Sig.sigint] = some [TailAct.logShutdownLine 0] ∧
    mainShutdownPart001 0 [Sig.sigint] ≠ mainShutdownMainGo 0 [Sig.sigint] := by
  refine ⟨rfl, rfl, rfl, rfl, rfl, ?_⟩
  simp [mainShutdownPart001, mainShutdownMainGo]

/-- Claim C10, amended: the variants agree on address parsing, the
election rule and the signal-only shutdown wait, but are not equivalent
on failed connections or logging: for every failed initial connection
part_001 launches a background retry sequence over loop indices 0, 1, 2
while main.go never retries; and on every delivered termination signal
part_001 invokes the one-time guarded flush of the buffered log while
main.go flushes nothing (it has no buffer and writes no per-node log
file). -/
theorem variants_differ (n : Nat) (s : Sig) (sigs : List Sig) (retryConn : Nat → Bool) :
    (retryConn 0 = false → 0 ∈ retriesAfterFailurePart001 retryConn ∧
      retriesAfterFailurePart001 retryConn ≠ retriesAfterFailureMainGo) ∧
    mainShutdownPart001 n (s :: sigs) =
      some [TailAct.logShutdownLine n, TailAct.flushOnceDo n] ∧
    mainShutdownMainGo n (s :: sigs) = some [TailAct.logShutdownLine n] ∧
    TailAct.flushOnceDo n ∉ [TailAct.logShutdownLine n] := by
  refine ⟨?_, rfl, rfl, by simp⟩
  intro h0
  have hmem : 0 ∈ retriesAfterFailurePart001 retryConn := by
    simp [retriesAfterFailurePart001, retryAttempts, retryLoopAux, h0]
  exact ⟨hmem, by intro heq; rw [heq] at hmem; simp [retriesAfterFailureMainGo] at hmem⟩

/-- Witness for the amended C10 with an always-failing retry oracle and
one SIGINT. -/
theorem variants_differ_witness :
    retriesAfterFailurePart001 (fun _ => false) ≠ retriesAfterFailureMainGo ∧
    mainShutdownMainGo 0 (Sig.sigint :: []) = some [TailAct.logShutdownLine 0] :=
  ⟨((variants_differ 0 Sig.sigint [] (fun _ => false)).1 rfl).2,
    (variants_differ 0 Sig.sigint [] (fun _ => false)).2.2.1⟩

end Gossip
